import Mathlib

/-!
Shallow embedding of the Code-Mentor diagnostic pipeline
(`app/ml_classifier.py`, `app/llm_utils.py`, `app/compiler_analyzer.py`,
`app/routes.py`) and proofs about the claims of its specification.

Conventions of the embedding:
* Python strings are Lean `String`s; scanning functions work on `List Char`
  (`String.data`).  Python's `in` on strings is `strContains`.
* Python floats used as confidence constants (0.95, 0.9, ...) are embedded as
  exact rationals (`ℚ`); the code only ever copies and compares them.
* Each `re` pattern used by the source is hand-compiled to a deterministic
  scanner.  Determinism is justified pattern by pattern in comments: wherever
  adjacent sub-patterns draw from disjoint character classes, Python's
  backtracking has exactly one viable choice, so maximal munch is faithful.
  The one pattern where backtracking order matters (`missing_colons`) is
  embedded with an explicit greedy backtracking search in Python's order.
* Exceptions are `Except PyExc`; total code returns plain values.
* Wall-clock fields (`processing_time`) are not modelled.
-/

namespace CodeMentor

/-- Whitespace per Python's `str.split` / `re` `\s` (ASCII range). -/
def isPyWs (c : Char) : Bool :=
  c = ' ' || c = '\t' || c = '\n' || c = '\r' || c = '\x0c' || c = '\x0b'

/-- Word characters per `re` `\w` (ASCII range: letters, digits, underscore). -/
def isWordChar (c : Char) : Bool :=
  c.isAlpha || c.isDigit || c = '_'

/-- Does `pat` occur as a prefix of `s`? -/
def beginsWith : List Char → List Char → Bool
  | [], _ => true
  | _ :: _, [] => false
  | c :: cs, d :: ds => c = d && beginsWith cs ds

/-- Does `needle` occur as a contiguous substring of `hay`?  Python's `in`. -/
def searchSub (needle : List Char) : List Char → Bool
  | [] => beginsWith needle []
  | c :: rest => beginsWith needle (c :: rest) || searchSub needle rest

/-- Python `needle in hay` on strings. -/
def strContains (needle hay : String) : Bool := searchSub needle.data hay.data

/-- Python `str.lower()` (ASCII letters; the source only lowers ASCII code). -/
def pyLower (s : String) : String := String.mk (s.data.map Char.toLower)

/-- Python `str.strip()`: remove leading and trailing whitespace. -/
def stripChars (s : List Char) : List Char :=
  ((s.dropWhile isPyWs).reverse.dropWhile isPyWs).reverse

/-- Python `str.strip()` on `String`. -/
def pyStrip (s : String) : String := String.mk (stripChars s.data)

/-- Split a character list at every character satisfying `p`, keeping empty
pieces — the behaviour of Python `str.split(sep)` for a one-character `sep`. -/
def splitOnPred (p : Char → Bool) : List Char → List (List Char)
  | [] => [[]]
  | c :: rest =>
    match splitOnPred p rest with
    | [] => [[]]
    | w :: ws => if p c then [] :: w :: ws else (c :: w) :: ws

/-- Python `code.split('\n')`. -/
def splitLines (s : List Char) : List (List Char) := splitOnPred (fun c => c = '\n') s

/-- Join pieces with a separator character (inverse of a split). -/
def joinWithChar (sep : Char) : List (List Char) → List Char
  | [] => []
  | [w] => w
  | w :: ws => w ++ sep :: joinWithChar sep ws

/-- Does `p` hold of some suffix of the list?  This is `re.search`'s scan over
all start positions. -/
def anySuffix (p : List Char → Bool) : List Char → Bool
  | [] => p []
  | c :: rest => p (c :: rest) || anySuffix p rest

/-- Expect the literal `pat` at the head, returning the remainder. -/
def dropLit : List Char → List Char → Option (List Char)
  | [], s => some s
  | _ :: _, [] => none
  | c :: cs, d :: ds => if c = d then dropLit cs ds else none

/-- Match `\s+` (at least one whitespace character, maximal munch). -/
def dropWs1 : List Char → Option (List Char)
  | [] => none
  | c :: rest => if isPyWs c then some (rest.dropWhile isPyWs) else none

/-- Match `\w+` (at least one word character, maximal munch). -/
def dropWord1 : List Char → Option (List Char)
  | [] => none
  | c :: rest => if isWordChar c then some (rest.dropWhile isWordChar) else none

/-- Keep the characters before the first occurrence of `pat`; if `pat` does not
occur, keep everything.  Models `re.sub(pat + r'.*?$', '', line)` per line. -/
def takeUntilSub (pat : List Char) : List Char → List Char
  | [] => []
  | c :: rest => if beginsWith pat (c :: rest) then [] else c :: takeUntilSub pat rest

/-! ## `app/ml_classifier.py` — EnhancedConceptClassifier -/

/-- One entry of the dictionaries appended to the detectors' `errors` lists.
Keys that only some dictionaries carry (`line`, `details`, `suggestion`) are
`Option`s defaulting to `none`. -/
structure DetectedIssue where
  type : String
  issue : String
  confidence : ℚ
  line : Option Nat := none
  details : Option String := none
  suggestion : Option String := none
deriving Repr, DecidableEq

/-- Scanner for `re.search(r'#define\s+\w+\s+[^;]*;', code)` at one start
position.  After the literal, `\s+` and `\w+` take maximal runs (the classes
are disjoint from each other and from the following literal, so backtracking
has a single viable choice); `\s+[^;]*;` succeeds iff one whitespace character
follows and a `';'` occurs afterwards (whitespace is never `';'`, and `[^;]*`
absorbs everything up to the first `';'`). -/
def defineSemiAt (s : List Char) : Bool :=
  match dropLit "#define".data s with
  | none => false
  | some r1 =>
    match dropWs1 r1 with
    | none => false
    | some r2 =>
      match dropWord1 r2 with
      | none => false
      | some r3 =>
        match r3 with
        | [] => false
        | c :: r4 => isPyWs c && r4.contains ';'

/-- Full `re.search` for the semicolon-after-`#define` pattern. -/
def defineSemiSearch (s : List Char) : Bool := anySuffix defineSemiAt s

/-- Search `r'#define.*?;'` within a single line (as used by
`_find_line_with_pattern`): a `#define` occurrence followed, later in the same
line, by a `';'`. -/
def lineHasDefineSemi (line : List Char) : Bool :=
  anySuffix (fun s =>
    match dropLit "#define".data s with
    | some r => r.contains ';'
    | none => false) line

/-- `_find_line_with_pattern`: 1-based index of the first line matching `p`,
`None` when no line matches. -/
def findLineWith (p : List Char → Bool) (code : String) : Option Nat :=
  ((splitLines code.data).findIdx? p).map (· + 1)

/-- Keywords of the `cpp_statements` pattern. -/
def cppStmtKws : List String :=
  ["cout", "cin", "return", "int", "long", "char", "float", "double"]

/-- One line matches `r'(cout|cin|return|int|long|char|float|double).*?[^;{}\n]$'`
under `re.MULTILINE` iff it is nonempty, its last character is none of
`;`, `{`, `}` (the `[^;{}\n]` consumed right before `$`), and some keyword
occurs entirely within the line minus that last character (`.` cannot cross
a newline, so every match is confined to one line and ends at its end). -/
def cppStmtLineMatch (line : List Char) : Bool :=
  match line.getLast? with
  | none => false
  | some c =>
    !(c = ';' || c = '{' || c = '}') &&
      cppStmtKws.any (fun kw => searchSub kw.data line.dropLast)

/-- Number of matches `re.findall` returns for the `cpp_statements` pattern:
matches end exactly at line ends and are non-overlapping, so there is at most
one per line and the count is the number of matching lines. -/
def cppStatementsCount (code : String) : Nat :=
  (splitLines code.data).countP cppStmtLineMatch

/-! Scanner for
`re.findall(r'(if|for|while|def|class|try|except|with|elif|else)\s+[^:\n]*[^:]$', code, re.MULTILINE)`.
Here `\s+` may cross newlines and `[^:]` may itself be a newline, so matches
are not confined to one line; we transcribe the engine's backtracking order
directly: alternatives left to right, `\s+` longest first, `[^:\n]*` longest
first, then the single `[^:]` and the multiline `$` assertion. -/

/-- Keywords of the `missing_colons` pattern, in the pattern's order. -/
def pyColonKws : List String :=
  ["if", "for", "while", "def", "class", "try", "except", "with", "elif", "else"]

/-- Multiline `$`: end of string or immediately before a newline. -/
def atEol : List Char → Bool
  | [] => true
  | c :: _ => c = '\n'

/-- The final `[^:]$` of the pattern. -/
def colonFinal : List Char → Option (List Char)
  | [] => none
  | c :: r4 => if !(c = ':') && atEol r4 then some r4 else none

/-- Try `[^:\n]*` taking `m` characters, then `m-1`, ..., then `0` (greedy). -/
def colonMidFrom (r2 : List Char) : Nat → Option (List Char)
  | 0 => colonFinal r2
  | m+1 =>
    match colonFinal (r2.drop (m+1)) with
    | some rem => some rem
    | none => colonMidFrom r2 m

/-- Match `[^:\n]*[^:]$` at `r2`, greedy. -/
def colonMid (r2 : List Char) : Option (List Char) :=
  colonMidFrom r2 (r2.takeWhile (fun c => !(c = ':') && !(c = '\n'))).length

/-- Try `\s+` taking `n` characters down to `1` (greedy, at least one). -/
def colonWsFrom (rest : List Char) : Nat → Option (List Char)
  | 0 => none
  | n+1 =>
    match colonMid (rest.drop (n+1)) with
    | some rem => some rem
    | none => colonWsFrom rest n

/-- Match `\s+[^:\n]*[^:]$` at `rest`. -/
def colonAfterKw (rest : List Char) : Option (List Char) :=
  colonWsFrom rest (rest.takeWhile isPyWs).length

/-- The keyword alternation, left to right, with backtracking into later
alternatives when the tail fails. -/
def colonAlt : List String → List Char → Option (List Char)
  | [], _ => none
  | kw :: kws, s =>
    if beginsWith kw.data s then
      match colonAfterKw (s.drop kw.length) with
      | some rem => some rem
      | none => colonAlt kws s
    else colonAlt kws s

/-- `re.findall` scan: leftmost match, resume after its end, count matches. -/
def colonScanAux : Nat → List Char → Nat → Nat
  | 0, _, acc => acc
  | _+1, [], acc => acc
  | fuel+1, c :: rest, acc =>
    match colonAlt pyColonKws (c :: rest) with
    | some rem => colonScanAux fuel rem (acc+1)
    | none => colonScanAux fuel rest acc

/-- `len(re.findall(...))` for the `missing_colons` pattern. -/
def missingColonsCount (code : String) : Nat :=
  colonScanAux (code.data.length + 1) code.data 0

/-- Keywords of the indentation control-structure pattern (note: no `else`). -/
def indentCtrlKws : List String :=
  ["if", "for", "while", "def", "class", "try", "except", "with", "elif"]

/-- `re.search(r'(if|for|...|elif).*:$', line.strip())`: the stripped line ends
with `':'` and some keyword occurs entirely before that final character
(`.` cannot cross a newline; a line holds none). -/
def indentCtrlMatch (stripped : List Char) : Bool :=
  match stripped.getLast? with
  | none => false
  | some c => c = ':' && indentCtrlKws.any (fun kw => searchSub kw.data stripped.dropLast)

/-- Loop body of `_check_python_indentation`: `i` is the 0-based line index,
`expected` the running `expected_indent`.  The expected indentation is updated
before the comparison within the same iteration, exactly as in the source. -/
def checkPyIndentAux : List (List Char) → Nat → Nat → List String
  | [], _, _ => []
  | line :: rest, i, expected =>
    let stripped := stripChars line
    if stripped = [] then checkPyIndentAux rest (i+1) expected
    else
      let currentIndent := line.length - (line.dropWhile isPyWs).length
      let expected2 :=
        if indentCtrlMatch stripped then expected + 4
        else if stripped = "else:".data || stripped = "finally:".data then expected + 4
        else expected
      let here :=
        if currentIndent ≠ expected2 && stripped ≠ [] then
          [s!"Line {i+1}: Expected {expected2} spaces, got {currentIndent}"]
        else []
      here ++ checkPyIndentAux rest (i+1) expected2

/-- `_check_python_indentation(lines)`. -/
def checkPyIndentation (lines : List (List Char)) : List String :=
  checkPyIndentAux lines 0 0

/-- The bracket pairs of `_check_bracket_matching`. -/
def bracketPairs : List (Char × Char) := [('(', ')'), ('[', ']'), ('{', '}')]

/-- `char in pairs` — is `c` an opening bracket? -/
def isOpenBracket (c : Char) : Bool := bracketPairs.any (fun p => p.1 = c)

/-- `char in pairs.values()` — is `c` a closing bracket? -/
def isCloseBracket (c : Char) : Bool := bracketPairs.any (fun p => p.2 = c)

/-- `pairs[opening]` (total: callers only pass openers; default is unused). -/
def closeOf (c : Char) : Char :=
  (((bracketPairs.find? (fun p => p.1 = c)).map (fun p => p.2)).getD ' ')

/-- Stack scan of `_check_bracket_matching`; the Python list-stack's top
(`stack[-1]`, the last `append`) is the head of the Lean list. -/
def bracketScan : List Char → Nat → List (Char × Nat) → Option String
  | [], _, stack =>
    match stack with
    | (opening, pos) :: _ => some s!"Unmatched opening '{opening}' at position {pos}"
    | [] => none
  | c :: rest, i, stack =>
    if isOpenBracket c then bracketScan rest (i+1) ((c, i) :: stack)
    else if isCloseBracket c then
      match stack with
      | [] => some s!"Unmatched closing '{c}' at position {i}"
      | (opening, pos) :: stack2 =>
        if !(closeOf opening = c) then
          some s!"Mismatched brackets: '{opening}' at {pos} and '{c}' at {i}"
        else bracketScan rest (i+1) stack2
    else bracketScan rest (i+1) stack

/-- `_check_bracket_matching(code)`: message of the first problem, else `None`. -/
def checkBracketMatching (code : List Char) : Option String := bracketScan code 0 []

/-- The merged typo dictionary `{**cpp_typos, **python_typos}` in insertion
order (C/C++ entries first, then the Python ones; the key sets are disjoint). -/
def allTypos : List (String × String) :=
  [("inlcude", "include"), ("reutrn", "return"), ("unsined", "unsigned"),
   ("singned", "signed"), ("vecotr", "vector"), ("stirng", "string"),
   ("dfe", "def"), ("prnit", "print"), ("improt", "import"),
   ("retrun", "return"), ("fro", "for")]

/-- The issue dictionary appended for one typo hit. -/
def mkTypoIssue (tc : String × String) : DetectedIssue :=
  { type := "Syntax Error",
    issue := "Possible typo: '" ++ tc.1 ++ "' should be '" ++ tc.2 ++ "'",
    confidence := 4/5 }

/-- `_check_keyword_typos(code)`: one issue per table entry whose typo string
occurs in the code, in table order. -/
def checkKeywordTypos (code : String) : List DetectedIssue :=
  (allTypos.filter (fun tc => strContains tc.1 code)).map mkTypoIssue

/-- The C/C++ marker substrings checked against `code.lower()`. -/
def cppCodeMarkers : List String := ["#include", "using namespace", "cout", "cin"]

/-- The Python marker substrings checked against the raw code. -/
def pyCodeMarkers : List String := ["def ", "import ", "print(", "if __name__"]

/-- `any(lang in code.lower() for lang in [...])`. -/
def cppMarkerPresent (code : String) : Bool :=
  cppCodeMarkers.any (fun m => strContains m (pyLower code))

/-- `any(keyword in code for keyword in [...])`. -/
def pyMarkerPresent (code : String) : Bool :=
  pyCodeMarkers.any (fun k => strContains k code)

/-- `detect_syntax_errors(code)`.  The Python truthiness tests on
`bracket_errors` (an `Optional[str]` whose messages are never empty) and on the
lists are embedded as `Option`/emptiness tests. -/
def detectSyntaxErrors (code : String) : List DetectedIssue :=
  (if cppMarkerPresent code then
    (if defineSemiSearch code.data then
      [{ type := "Syntax Error", issue := "Semicolon after #define",
         confidence := 19/20, line := findLineWith lineHasDefineSemi code }]
     else [])
    ++ (if 0 < cppStatementsCount code then
      [{ type := "Syntax Error", issue := "Possibly missing semicolon",
         confidence := 7/10,
         details :=
           let n := cppStatementsCount code
           some s!"Found {n} suspicious lines" }]
     else [])
  else if pyMarkerPresent code then
    (if 0 < missingColonsCount code then
      [{ type := "Syntax Error", issue := "Missing colon after control structure",
         confidence := 9/10,
         details :=
           let n := missingColonsCount code
           some s!"Found {n} lines missing colons" }]
     else [])
    ++ (if checkPyIndentation (splitLines code.data) ≠ [] then
      [{ type := "Syntax Error", issue := "Indentation error",
         confidence := 4/5,
         details :=
           let n := (checkPyIndentation (splitLines code.data)).length
           some s!"Found {n} indentation issues" }]
     else [])
  else [])
  ++ (match checkBracketMatching code.data with
      | some msg =>
        [{ type := "Syntax Error", issue := "Unmatched brackets/braces",
           confidence := 9/10, details := some msg }]
      | none => [])
  ++ checkKeywordTypos code

/-- Scanner for `re.search(r'#define\s+int\s+long\s+long', code)`: literals
separated by `\s+`; each whitespace run is maximal since the following literal
starts with a non-whitespace character. -/
def defineIntLongLongAt (s : List Char) : Bool :=
  (do
    let s ← dropLit "#define".data s
    let s ← dropWs1 s
    let s ← dropLit "int".data s
    let s ← dropWs1 s
    let s ← dropLit "long".data s
    let s ← dropWs1 s
    let _ ← dropLit "long".data s
    pure ()).isSome

/-- Scanner for `re.search(r'int\s+main\s*\(', code)`. -/
def intMainAt (s : List Char) : Bool :=
  (do
    let s ← dropLit "int".data s
    let s ← dropWs1 s
    let s ← dropLit "main".data s
    let s := s.dropWhile isPyWs
    let _ ← dropLit "(".data s
    pure ()).isSome

/-- `detect_compilation_errors(code)`. -/
def detectCompilationErrors (code : String) : List DetectedIssue :=
  if strContains "#include" code then
    (if strContains "vector" code && !strContains "#include <vector>" code then
      [{ type := "Compilation Error", issue := "Missing #include <vector>",
         confidence := 17/20 }]
     else [])
    ++ (if strContains "sort(" code && !strContains "#include <algorithm>" code
          && !strContains "#include <bits/stdc++.h>" code then
      [{ type := "Compilation Error",
         issue := "Missing #include <algorithm> for sort()", confidence := 17/20 }]
     else [])
    ++ (if anySuffix defineIntLongLongAt code.data && anySuffix intMainAt code.data then
      [{ type := "Compilation Error",
         issue := "Type conflict: #define int long long with int main()",
         confidence := 9/10,
         suggestion := some "Use signed main() instead of int main()" }]
     else [])
  else []

/-- Scanner for
`re.search(r'for\s*\(\s*int\s+\w+\s*=\s*0\s*;\s*\w+\s*<=?\s*n\s*;', code)`.
All `\s*`/`\s+`/`\w+` runs are maximal (each is followed by a literal or class
disjoint from it); `<=?` consumes an `'='` exactly when one is present (if an
`'='` follows the `'<'`, skipping it cannot succeed since `'='` is neither
whitespace nor `'n'`). -/
def forBoundAt (s : List Char) : Bool :=
  (do
    let s ← dropLit "for".data s
    let s := s.dropWhile isPyWs
    let s ← dropLit "(".data s
    let s := s.dropWhile isPyWs
    let s ← dropLit "int".data s
    let s ← dropWs1 s
    let s ← dropWord1 s
    let s := s.dropWhile isPyWs
    let s ← dropLit "=".data s
    let s := s.dropWhile isPyWs
    let s ← dropLit "0".data s
    let s := s.dropWhile isPyWs
    let s ← dropLit ";".data s
    let s := s.dropWhile isPyWs
    let s ← dropWord1 s
    let s := s.dropWhile isPyWs
    let s ← dropLit "<".data s
    let s := match dropLit "=".data s with
      | some r => r
      | none => s
    let s := s.dropWhile isPyWs
    let s ← dropLit "n".data s
    let s := s.dropWhile isPyWs
    let _ ← dropLit ";".data s
    pure ()).isSome

/-- Scanner for
`re.search(r'mid\s*=\s*\(\s*left\s*\+\s*right\s*\)\s*/\s*2', code)`. -/
def midOverflowAt (s : List Char) : Bool :=
  (do
    let s ← dropLit "mid".data s
    let s := s.dropWhile isPyWs
    let s ← dropLit "=".data s
    let s := s.dropWhile isPyWs
    let s ← dropLit "(".data s
    let s := s.dropWhile isPyWs
    let s ← dropLit "left".data s
    let s := s.dropWhile isPyWs
    let s ← dropLit "+".data s
    let s := s.dropWhile isPyWs
    let s ← dropLit "right".data s
    let s := s.dropWhile isPyWs
    let s ← dropLit ")".data s
    let s := s.dropWhile isPyWs
    let s ← dropLit "/".data s
    let s := s.dropWhile isPyWs
    let _ ← dropLit "2".data s
    pure ()).isSome

/-- `detect_logic_errors(code)`. -/
def detectLogicErrors (code : String) : List DetectedIssue :=
  (if anySuffix forBoundAt code.data
      && (strContains "vector<" code || strContains "array[" code) then
    [{ type := "Logic Error",
       issue := "Potential array bounds error (using <= n instead of < n)",
       confidence := 3/4 }]
   else [])
  ++ (if (strContains "binary" (pyLower code)
        || (strContains "left" code && strContains "right" code
              && strContains "mid" code))
       && anySuffix midOverflowAt code.data then
    [{ type := "Logic Error",
       issue := "Potential integer overflow in mid calculation",
       confidence := 7/10,
       suggestion := some "Use mid = left + (right - left) / 2" }]
   else [])

/-- Python `max(errors, key=lambda x: x.get('confidence', 0))`: first element
whose key is maximal (later elements replace only on strictly greater key).
Every dictionary the detectors build carries a `confidence`.  The empty case is
unreachable (Python `max` raises there; every call site guards non-emptiness). -/
def bestByConfidence : List DetectedIssue → DetectedIssue
  | [] => { type := "", issue := "", confidence := 0 }
  | h :: t => t.foldl (fun b x => if b.confidence < x.confidence then x else b) h

/-! Preprocessing (`preprocess_code`): the five `re.sub` passes, whitespace
normalisation and lowering, in source order. -/

/-- Remove block comments: `re.sub(r'/\*.*?\*/', '', code, flags=re.DOTALL)` —
from each `/*` to the nearest following `*/`, non-overlapping; an unclosed
`/*` matches nothing.  `fuel` only bounds the recursion (each step consumes at
least one character, so `length` suffices). -/
def dropAfterBlockClose : List Char → Option (List Char)
  | [] => none
  | c :: rest =>
    if beginsWith "*/".data (c :: rest) then some (rest.drop 1)
    else dropAfterBlockClose rest

/-- Fueled scan for block-comment removal. -/
def removeBlockAux : Nat → List Char → List Char
  | 0, s => s
  | fuel+1, s =>
    match s with
    | [] => []
    | c :: rest =>
      if beginsWith "/*".data (c :: rest) then
        match dropAfterBlockClose (rest.drop 1) with
        | some r => removeBlockAux fuel r
        | none => c :: rest
      else c :: removeBlockAux fuel rest

/-- `re.sub(r'/\*.*?\*/', '', code, flags=re.DOTALL)`. -/
def removeBlockComments (s : List Char) : List Char := removeBlockAux s.length s

/-- Scan past the closing quote `q`, failing at a newline (without `DOTALL`,
`.` cannot cross lines) or at the end. -/
def findCloseQuote (q : Char) : List Char → Option (List Char)
  | [] => none
  | c :: rest =>
    if c = q then some rest
    else if c = '\n' then none
    else findCloseQuote q rest

/-- Fueled scan replacing `q.*?q` (shortest, same line) by `STRING`. -/
def replaceQuotedAux (q : Char) : Nat → List Char → List Char
  | 0, s => s
  | fuel+1, s =>
    match s with
    | [] => []
    | c :: rest =>
      if c = q then
        match findCloseQuote q rest with
        | some after => "STRING".data ++ replaceQuotedAux q fuel after
        | none => c :: replaceQuotedAux q fuel rest
      else c :: replaceQuotedAux q fuel rest

/-- `re.sub(q + '.*?' + q, 'STRING', code)` for a quote character `q`. -/
def replaceQuoted (q : Char) (s : List Char) : List Char := replaceQuotedAux q s.length s

/-- `' '.join(code.split())`: split on whitespace runs, drop empties, join. -/
def normalizeWs (s : List Char) : List Char :=
  joinWithChar ' ' ((splitOnPred isPyWs s).filter (fun w => w ≠ []))

/-- `preprocess_code(code)`.  `re.sub(r'#.*?$', ..., re.MULTILINE)` and the
`//` pass delete from each marker to its line end, i.e. truncate each line at
the first marker occurrence. -/
def preprocessCode (code : String) : String :=
  let c1 := joinWithChar '\n' ((splitLines code.data).map (takeUntilSub "#".data))
  let c2 := removeBlockComments c1
  let c3 := joinWithChar '\n' ((splitLines c2).map (takeUntilSub "//".data))
  let c4 := replaceQuoted '"' c3
  let c5 := replaceQuoted '\'' c4
  let c6 := normalizeWs c5
  String.mk (c6.map Char.toLower)

/-- `_rule_based_classification(code)`: the ordered keyword-membership table. -/
def ruleBasedClassification (code : String) : String :=
  let cl := pyLower code
  if ["binary", "left <= right", "mid =", "while left <= right"].any
      (fun p => strContains p cl) then "Binary Search"
  else if ["dp[", "memo", "dynamic", "previous"].any (fun p => strContains p cl) then
    "Dynamic Programming"
  else if ["dfs", "bfs", "graph", "visited"].any (fun p => strContains p cl) then
    "Graph Traversal"
  else if ["sort", "sorted", "quicksort", "mergesort"].any (fun p => strContains p cl) then
    "Sorting"
  else if ["tree", "root", "left", "right", "node"].any (fun p => strContains p cl) then
    "Tree Algorithms"
  else if ["backtrack", "recursive"].any (fun p => strContains p cl) then
    "Backtracking"
  else if ["greedy", "minimum", "maximum"].any (fun p => strContains p cl) then
    "Greedy Algorithm"
  else if ["string", "str", "char", "split"].any (fun p => strContains p cl) then
    "String Processing"
  else if ["math", "sqrt", "formula"].any (fun p => strContains p cl) then
    "Mathematics"
  else "General Programming"

/-- The trained statistical model, when loaded (`self.pipeline`).  `predictFn`
returns `none` when `pipeline.predict` raises (caught by the outer handler);
`probaFn` returns `none` when `predict_proba` is unavailable or raises (the
inner handler then uses 0.7).  A `some` from `probaFn` is the maximal class
probability `max(probabilities)`. -/
structure ModelPipeline where
  predictFn : String → Option String
  probaFn : String → Option ℚ

/-- The statistical-or-rule-based tail of `predict_concept` (its code after the
three detector checks): consult the model when present, fall back to the rule
table at confidence 0.5 otherwise (also when `pipeline.predict` raises, via the
outer `except`). -/
def topicBranch (pipeline : Option ModelPipeline) (code : String) : String × ℚ :=
  match pipeline with
  | some m =>
    let processed := preprocessCode code
    match m.predictFn processed with
    | some label => (label, (m.probaFn processed).getD (7/10))
    | none => (ruleBasedClassification code, 1/2)
  | none => (ruleBasedClassification code, 1/2)

/-- `predict_concept(code)`: syntax, then compilation, then logic detectors,
each reduced by `max` on confidence; only then the statistical/rule fallback.
All embedded operations are total, so the outer `except` is reachable only
through the modelled `pipeline.predict` failure (see `topicBranch`). -/
def predictConcept (pipeline : Option ModelPipeline) (code : String) : String × ℚ :=
  if detectSyntaxErrors code = [] then
    if detectCompilationErrors code = [] then
      if detectLogicErrors code = [] then topicBranch pipeline code
      else ("Logic Error", (bestByConfidence (detectLogicErrors code)).confidence)
    else ("Compilation Error", (bestByConfidence (detectCompilationErrors code)).confidence)
  else ("Syntax Error", (bestByConfidence (detectSyntaxErrors code)).confidence)

/-! ## Python exceptions -/

/-- The exceptions the embedded code can raise. -/
inductive PyExc where
  | nameErr (nm : String)
  | attrErr (msg : String)
deriving Repr, DecidableEq

/-- Python `str(e)` for the embedded exceptions. -/
def PyExc.message : PyExc → String
  | .nameErr nm => "name '" ++ nm ++ "' is not defined"
  | .attrErr m => m

/-! ## `app/llm_utils.py` — EnhancedLLMSuggestionEngine -/

/-- Whether the module `llm_utils.py` binds the name `re`.  Its import list is
`os`, `time`, `logging`, `typing`, `langchain_openai`, `langchain_core.prompts`,
`langchain_core.output_parsers`, `app.config` — `re` is never imported, so any
evaluation of `re.search`/`re.findall` inside this module raises
`NameError: name 're' is not defined`. -/
def reImportedInLlmUtils : Bool := false

/-- `re.search(r'for.*<=.*n', code)` within one line (`.` cannot cross a
newline): a `for` occurrence followed later in the line by `<=` and then `n`. -/
def forLeNLineMatch (line : List Char) : Bool :=
  anySuffix (fun s =>
    match dropLit "for".data s with
    | none => false
    | some r =>
      anySuffix (fun t =>
        match dropLit "<=".data t with
        | none => false
        | some u => u.contains 'n') r) line

/-- Stack scan of `_check_bracket_mismatch` (the boolean variant). -/
def bracketMismatchScan : List Char → List Char → Bool
  | [], stack => stack ≠ []
  | c :: rest, stack =>
    if isOpenBracket c then bracketMismatchScan rest (c :: stack)
    else if isCloseBracket c then
      match stack with
      | [] => true
      | opening :: stack2 =>
        if !(closeOf opening = c) then true else bracketMismatchScan rest stack2
    else bracketMismatchScan rest stack

/-- `_check_bracket_mismatch(code)`. -/
def checkBracketMismatch (code : List Char) : Bool := bracketMismatchScan code []

/-- `_get_syntax_error_suggestion(code)`.  Its first statement evaluates
`re.search(...)`; since `re` is unbound in this module the call raises
`NameError` before anything else happens.  The `then` branch embeds the body
that would run were the import present. -/
def getSyntaxErrorSuggestion (code : String) : Except PyExc String :=
  if reImportedInLlmUtils then
    let s1 :=
      if defineSemiSearch code.data then
        ["❌ **Critical Error:** Remove semicolon after `#define`",
         "✅ **Fix:** Change `#define int long long;` to `#define int long long`",
         "⚠️ **Also:** Use `signed main()` instead of `int main()` when redefining int"]
      else []
    let s2 :=
      if ["def ", "if ", "for ", "while "].any (fun k => strContains k code) then
        (if 0 < missingColonsCount code then
          let n := missingColonsCount code
          ["❌ **Missing Colons:** Add ':' after control structures",
           s!"✅ **Fix:** Found {n} lines missing colons"]
         else [])
      else []
    let s3 :=
      if checkBracketMismatch code.data then
        ["❌ **Bracket Mismatch:** Check for unmatched brackets/braces",
         "✅ **Fix:** Count opening and closing brackets carefully"]
      else []
    let all := s1 ++ s2 ++ s3
    let final :=
      if all = [] then
        ["**Common Syntax Issues to Check:**",
         "• Missing semicolons at end of statements",
         "• Unmatched brackets: (), [], {}",
         "• Typos in keywords (return, include, etc.)",
         "• Missing colons after if/for/while in Python"]
      else all
    pure (String.intercalate "\n" final)
  else .error (.nameErr "re")

/-- The unconditional `suggestions.extend([...])` tail of
`_get_compilation_error_suggestion`. -/
def genericCompilationFixes : List String :=
  ["**General Compilation Fixes:**",
   "• Check all variable declarations",
   "• Ensure function signatures match calls",
   "• Verify all required headers are included",
   "• Check for type mismatches"]

/-- `_get_compilation_error_suggestion(code)`.  `re` is only reached inside the
`'#include' in code` branch (the third check); the two header checks run first
but their partial appends are discarded by the exception. -/
def getCompilationErrorSuggestion (code : String) : Except PyExc String :=
  if strContains "#include" code then
    if reImportedInLlmUtils then
      pure (String.intercalate "\n"
        (["**Compilation Error Analysis:**"]
         ++ (if strContains "vector" code && !strContains "#include <vector>" code
               && !strContains "#include <bits/stdc++.h>" code then
              ["❌ **Missing Header:** Add `#include <vector>`"] else [])
         ++ (if strContains "sort(" code && !strContains "#include <algorithm>" code
               && !strContains "#include <bits/stdc++.h>" code then
              ["❌ **Missing Header:** Add `#include <algorithm>` for sort()"] else [])
         ++ (if anySuffix defineIntLongLongAt code.data && strContains "int main(" code then
              ["❌ **Type Conflict:** `#define int long long` conflicts with `int main()`",
               "✅ **Fix:** Use `signed main()` instead of `int main()`"] else [])
         ++ genericCompilationFixes))
    else .error (.nameErr "re")
  else pure (String.intercalate "\n" (["**Compilation Error Analysis:**"] ++ genericCompilationFixes))

/-- `_get_logic_error_suggestion(code)`.  Its first check evaluates
`re.search(r'for.*<=.*n', code)` unconditionally, so it raises `NameError`
whenever `re` is unbound. -/
def getLogicErrorSuggestion (code : String) : Except PyExc String :=
  if reImportedInLlmUtils then
    pure (String.intercalate "\n"
      (["**Logic Error Analysis:**"]
       ++ (if (splitLines code.data).any forLeNLineMatch then
            ["❌ **Array Bounds:** Using `<= n` may cause out-of-bounds access",
             "✅ **Fix:** Use `< n` for 0-indexed arrays"] else [])
       ++ (if strContains "mid = (left + right) / 2" code then
            ["❌ **Integer Overflow:** `(left + right) / 2` can overflow",
             "✅ **Fix:** Use `mid = left + (right - left) / 2`"] else [])
       ++ ["**Common Logic Issues:**",
           "• Off-by-one errors in loops",
           "• Integer overflow in calculations",
           "• Wrong loop conditions",
           "• Incorrect array indexing"]))
  else .error (.nameErr "re")

/-- The two literal entries of `algorithmic_suggestions` plus the `.get`
default. -/
def algorithmicInfo (concept : String) : String × String :=
  if concept = "Binary Search" then
    ("**Binary Search Issues:**\n• Check loop condition (left <= right vs left < right)\n• Use `mid = left + (right - left) / 2` to prevent overflow\n• Ensure array is sorted before searching\n• Handle edge cases: empty array, single element\n• Verify search condition logic",
     "💡 Always verify your array is sorted before binary search!")
  else if concept = "Dynamic Programming" then
    ("**DP Debugging Checklist:**\n• Verify base cases are correct\n• Check state transitions and recurrence relation\n• Ensure you're not accessing out-of-bounds indices\n• Consider bottom-up vs top-down approach\n• Check if you need 1D or 2D DP array",
     "💡 Draw out small examples to verify your DP logic!")
  else
    ("**General Debugging:**\n• Add debug prints to trace execution\n• Test with simple inputs first\n• Check variable types and values\n• Verify logic step by step\n• Consider edge cases",
     "💡 Break down complex problems into smaller parts!")

/-- The dictionary returned by the suggestion engine (`processing_time`, a
wall-clock float, is not modelled). -/
structure SuggestionResult where
  suggestion : String
  source : String
  success : Bool
  errorType : String
deriving Repr, DecidableEq

/-- `_enhanced_fallback_suggestion(concept, error, code)`.  The Python dict
literal `error_suggestions` evaluates its three values eagerly and in order,
so all three `_get_*` helpers run (and the first raises) before any concept
dispatch. -/
def enhancedFallbackSuggestion (concept error code : String) : Except PyExc SuggestionResult :=
  match getSyntaxErrorSuggestion code with
  | .error e => .error e
  | .ok synText =>
    match getCompilationErrorSuggestion code with
    | .error e => .error e
    | .ok compText =>
      match getLogicErrorSuggestion code with
      | .error e => .error e
      | .ok logicText =>
        let conceptInfo : String × String :=
          if concept = "Syntax Error" then
            (synText, "💡 Always check for missing semicolons, brackets, and typos in keywords!")
          else if concept = "Compilation Error" then
            (compText, "💡 Make sure all required headers are included and types match!")
          else if concept = "Logic Error" then
            (logicText, "💡 Test with small inputs and trace through your algorithm step by step!")
          else algorithmicInfo concept
        let base := conceptInfo.1
        let full :=
          if error ≠ "" && pyStrip error ≠ "" then
            "**Error Analysis:** " ++ error ++ "\n\n" ++ base
          else base
        .ok { suggestion := full ++ "\n\n" ++ conceptInfo.2,
              source := "rule_based_enhanced", success := true, errorType := concept }

/-- The per-request payload handed to `self.chain.invoke({...})`. -/
structure PromptPayload where
  code : String
  error : String
  concept : String
  language : String
  confidence : Int
deriving Repr, DecidableEq

/-- The code truncation applied inside `get_suggestion` before the chain is
invoked: `if len(code) > 2000: code = code[:2000] + "\n... (truncated)"`. -/
def truncatedPromptCode (code : String) : String :=
  if 2000 < code.data.length then String.mk (code.data.take 2000) ++ "\n... (truncated)"
  else code

/-- The payload fields of `chain.invoke` in `get_suggestion`.  `int(c * 100)`
truncates toward zero; confidences lie in `[0, 1]`, where truncation and floor
agree. -/
def mkPromptPayload (code error concept language : String) (confidence : ℚ) : PromptPayload :=
  { code := truncatedPromptCode code,
    error := if error = "" then "No specific error provided" else error,
    concept := concept, language := language,
    confidence := ⌊confidence * 100⌋ }

/-- `get_suggestion(code, error, concept, language, confidence)`.  `chain` is
`none` when the service is unconfigured (`self.chain is None`); otherwise it is
the chain's `invoke`, which may raise (`.error`).  The `try` block covers the
first fallback call and the chain invocation; the `except` handler's own
fallback call runs outside any `try`, so an exception it raises propagates to
the caller. -/
def getSuggestionEngine (chain : Option (PromptPayload → Except PyExc String))
    (code error concept language : String) (confidence : ℚ) : Except PyExc SuggestionResult :=
  let attempt : Except PyExc SuggestionResult :=
    match chain with
    | none => enhancedFallbackSuggestion concept error code
    | some invokeFn =>
      match invokeFn (mkPromptPayload code error concept language confidence) with
      | .error e => .error e
      | .ok text =>
        .ok { suggestion := pyStrip text, source := "llm", success := true,
              errorType := concept }
  match attempt with
  | .ok r => .ok r
  | .error _ => enhancedFallbackSuggestion concept error code

/-! ## `app/routes.py` — submission record -/

/-- The `CodeSubmission(...)` constructed in `analyze_code` (`routes.py`
lines 52–59); `processing_time`, a wall-clock float, is not modelled. -/
structure CodeSubmission where
  code : String
  error : String
  concept : String
  suggestion : String
  confidenceScore : ℚ
deriving Repr, DecidableEq

/-- The submission construction of `routes.py`: it stores the request's
original `code` variable, which no callee can rebind. -/
def mkSubmission (code error concept : String) (res : SuggestionResult)
    (confidence : ℚ) : CodeSubmission :=
  { code := code, error := error, concept := concept,
    suggestion := res.suggestion, confidenceScore := confidence }

/-! ## `app/compiler_analyzer.py` — CompilerAnalyzer -/

/-- `self.compilers`. -/
def compilersTable : List (String × String) :=
  [("cpp", "g++"), ("c", "gcc"), ("python", "python"), ("java", "javac")]

/-- `self.extensions`. -/
def extensionsTable : List (String × String) :=
  [("cpp", ".cpp"), ("c", ".c"), ("python", ".py"), ("java", ".java")]

/-- The command list `_compile_code` passes to `subprocess.run` for each
supported language. -/
def buildCmd (language filepath : String) : List String :=
  if language = "cpp" then ["g++", "-Wall", "-Wextra", "-std=c++17", filepath, "-o", "/tmp/output"]
  else if language = "c" then ["gcc", "-Wall", "-Wextra", filepath, "-o", "/tmp/output"]
  else if language = "python" then ["python", "-m", "py_compile", filepath]
  else ["javac", filepath]

/-- `repr` of a list of plain strings as Python renders it inside
`str(TimeoutExpired)` (the command strings contain no quotes). -/
def pyReprStrList (l : List String) : String :=
  "[" ++ String.intercalate ", " (l.map (fun x => "'" ++ x ++ "'")) ++ "]"

/-- `str(subprocess.TimeoutExpired(cmd, 10))`. -/
def timeoutExpiredMsg (cmd : List String) : String :=
  "Command '" ++ pyReprStrList cmd ++ "' timed out after 10 seconds"

/-- One completed `subprocess.run`: exit status, captured streams, and the
files the toolchain created on disk (e.g. `/tmp/output`). -/
structure RunRes where
  returncode : Int
  stdout : String
  stderr : String
  created : List String := []
deriving Repr, DecidableEq

/-- Outcome of one toolchain invocation: normal completion, the 10-second
timeout (`subprocess.TimeoutExpired`), or any other raised exception. -/
inductive ExecOutcome where
  | completed (r : RunRes)
  | timedOut
  | raised (msg : String)
deriving Repr, DecidableEq

/-- The external system: what `subprocess.run` does for a given command. -/
structure SysWorld where
  run : List String → ExecOutcome

/-- The canned analysis attached to one parsed issue. -/
structure ErrAnalysis where
  issueType : String
  fix : String
  explanation : String
deriving Repr, DecidableEq

/-- `_analyze_cpp_error(message)`: ordered substring tests on the lowered
message. -/
def analyzeCppError (message : String) : ErrAnalysis :=
  let ml := pyLower message
  if strContains "expected ';'" ml then
    { issueType := "missing_semicolon",
      fix := "Add semicolon at the end of the statement",
      explanation := "C++ statements must end with semicolons" }
  else if strContains "expected '\x7b'" ml then
    { issueType := "missing_brace",
      fix := "Add opening brace after function/control structure",
      explanation := "Function bodies and control structures need braces" }
  else if strContains "#define" ml && strContains ";" ml then
    { issueType := "define_semicolon",
      fix := "Remove semicolon from #define statement",
      explanation := "#define is a preprocessor directive, not a C++ statement" }
  else
    { issueType := "general",
      fix := "Check syntax according to error message",
      explanation := "General compilation error" }

/-- `_analyze_python_error(message)` (tests on the raw message). -/
def analyzePythonError (message : String) : ErrAnalysis :=
  if strContains "IndentationError" message then
    { issueType := "indentation",
      fix := "Fix indentation - use 4 spaces consistently",
      explanation := "Python uses indentation to define code blocks" }
  else if strContains "invalid syntax" message then
    { issueType := "syntax",
      fix := "Check for missing colons, parentheses, or quotes",
      explanation := "Python syntax error detected" }
  else
    { issueType := "general",
      fix := "Check Python syntax",
      explanation := "General Python error" }

/-- One structured issue extracted from toolchain diagnostics. -/
structure CompilerIssue where
  line : Nat
  column : Nat
  type : String
  message : String
  confidence : ℚ
  source : String
  analysis : ErrAnalysis
deriving Repr, DecidableEq

/-- Numeric value of a digit run (`int` of a `(\d+)` group). -/
def digitsVal (ds : List Char) : Nat :=
  ds.foldl (fun acc c => acc * 10 + (c.toNat - '0'.toNat)) 0

/-- Tail of the GCC line pattern after the `(error|warning)` group: `:` then
`\s*(.+)`.  `\s*` is greedy; when everything after the colon is whitespace it
gives one character back so that `.+` (then the whole remainder) is nonempty. -/
def gccSeverityTail (sev : String) (d1 d2 : List Char) :
    List Char → Option (Nat × Nat × String × String)
  | ':' :: r7 =>
    let r8 := r7.dropWhile isPyWs
    if r8 ≠ [] then some (digitsVal d1, digitsVal d2, sev, String.mk r8)
    else
      match r7.getLast? with
      | some c => some (digitsVal d1, digitsVal d2, sev, String.mk [c])
      | none => none
  | _ => none

/-- The GCC line pattern after the colon that terminates group 1:
`(\d+):(\d+):\s*(error|warning)` then the tail.  Each digit run and whitespace
run is maximal (followed by a disjoint literal); `error` is tried before
`warning`, as in the pattern. -/
def gccAfterFirstColon (rest : List Char) : Option (Nat × Nat × String × String) :=
  let d1 := rest.takeWhile Char.isDigit
  if d1 = [] then none
  else
    match rest.dropWhile Char.isDigit with
    | ':' :: r2 =>
      let d2 := r2.takeWhile Char.isDigit
      if d2 = [] then none
      else
        match r2.dropWhile Char.isDigit with
        | ':' :: r4 =>
          let r5 := r4.dropWhile isPyWs
          (match dropLit "error".data r5 with
           | some r6 => gccSeverityTail "error" d1 d2 r6
           | none =>
             match dropLit "warning".data r5 with
             | some r6 => gccSeverityTail "warning" d1 d2 r6
             | none => none)
        | _ => none
    | _ => none

/-- `re.match(r'(.+):(\d+):(\d+):\s*(error|warning):\s*(.+)', line)`: anchored
at the line start; the greedy group 1 tries the longest split first (`k` is the
candidate length of group 1, descending; a split line contains no newline, so
`.+` is unconstrained). -/
def gccTrySplit (line : List Char) : Nat → Option (Nat × Nat × String × String)
  | 0 => none
  | k+1 =>
    match line.drop (k+1) with
    | ':' :: rest =>
      (match gccAfterFirstColon rest with
       | some r => some r
       | none => gccTrySplit line k)
    | _ => gccTrySplit line k

/-- Full match attempt of the GCC diagnostic-line pattern. -/
def gccLineMatch (line : List Char) : Option (Nat × Nat × String × String) :=
  gccTrySplit line (line.length - 1)

/-- `_parse_gcc_errors(stderr)`. -/
def parseGccErrors (stderr : String) : List CompilerIssue :=
  (splitLines stderr.data).filterMap (fun line =>
    if stripChars line = [] then none
    else
      match gccLineMatch line with
      | some (ln, col, sev, msgRaw) =>
        let msg := pyStrip msgRaw
        some { line := ln, column := col, type := sev, message := msg,
               confidence := 19/20, source := "compiler",
               analysis := analyzeCppError msg }
      | none => none)

/-- First `Option`-valued hit over all suffixes (leftmost `re.search`). -/
def firstSuffixSome {α : Type} (f : List Char → Option α) : List Char → Option α
  | [] => f []
  | c :: rest =>
    match f (c :: rest) with
    | some a => some a
    | none => firstSuffixSome f rest

/-- `re.search(r'line (\d+)', l)`: the value of the first digit run following
a `"line "` occurrence. -/
def lineNumSearch (l : List Char) : Option Nat :=
  firstSuffixSome (fun s =>
    match dropLit "line ".data s with
    | none => none
    | some r =>
      let ds := r.takeWhile Char.isDigit
      if ds = [] then none else some (digitsVal ds)) l

/-- The look-back loop of `_parse_python_errors`: scan lines
`max(0, i-3) .. i-1` and take the first `line (\d+)` hit (the `'line' in
lines[j]` test is a gate the regex hit implies). -/
def pyWindowLineNum (lines : List (List Char)) (i : Nat) : Option Nat :=
  (List.range' (i - 3) (i - (i - 3))).findSome? (fun j =>
    let lj := lines.getD j []
    if searchSub "line".data lj then lineNumSearch lj else none)

/-- `_parse_python_errors(stderr)`.  `line_num or 1` treats a parsed `0` as
falsy, like Python. -/
def parsePythonErrors (stderr : String) : List CompilerIssue :=
  let lines := splitLines stderr.data
  (List.range lines.length).filterMap (fun i =>
    let line := lines.getD i []
    if searchSub "SyntaxError".data line || searchSub "IndentationError".data line then
      let ln :=
        match pyWindowLineNum lines i with
        | some n => if n = 0 then 1 else n
        | none => 1
      some { line := ln, column := 1, type := "error",
             message := String.mk (stripChars line), confidence := 9/10,
             source := "compiler", analysis := analyzePythonError (String.mk line) }
    else none)

/-- One entry of the `exact_fixes` list. -/
structure ExactFix where
  line : Nat
  issueType : String
  originalError : String
  fixDescription : String
  explanation : String
  confidence : ℚ
  codeSuggestion : Option String := none
deriving Repr, DecidableEq

/-- `_generate_exact_fixes(issues, language)` (the `language` parameter is
unused by the body, as in the source). -/
def generateExactFixes (issues : List CompilerIssue) (_language : String) : List ExactFix :=
  issues.map (fun issue =>
    { line := issue.line, issueType := issue.analysis.issueType,
      originalError := issue.message, fixDescription := issue.analysis.fix,
      explanation := issue.analysis.explanation, confidence := issue.confidence,
      codeSuggestion :=
        if issue.analysis.issueType = "missing_semicolon" then
          some ("Add ';' at the end of line " ++ toString issue.line)
        else if issue.analysis.issueType = "define_semicolon" then
          some ("Remove ';' from #define on line " ++ toString issue.line)
        else none })

/-- Message of the `AttributeError` raised when `_extract_issues` dispatches to
`self._parse_java_errors`: no method of that name is defined anywhere in the
class, so the attribute lookup fails at call time. -/
def javaAttrMsg : String := "'CompilerAnalyzer' object has no attribute '_parse_java_errors'"

/-- `_extract_issues(stderr, language)`. -/
def extractIssues (stderr language : String) : Except PyExc (List CompilerIssue) :=
  if language = "cpp" || language = "c" then .ok (parseGccErrors stderr)
  else if language = "python" then .ok (parsePythonErrors stderr)
  else if language = "java" then .error (.attrErr javaAttrMsg)
  else .ok []

/-- The parsed-result dictionary of `_parse_compiler_output`; keys present only
on some paths are `Option`s. -/
structure AnalyzeOutput where
  success : Bool
  error : Option String := none
  compilationSuccessful : Option Bool := none
  issues : List CompilerIssue := []
  exactFixes : List ExactFix := []
  rawStderr : Option String := none
  rawStdout : Option String := none
  primaryIssue : Option CompilerIssue := none
deriving Repr, DecidableEq

/-- `_parse_compiler_output(result, language)`; issue extraction may raise
(java), propagating to `analyze_code`'s handler. -/
def parseCompilerOutput (r : RunRes) (language : String) : Except PyExc AnalyzeOutput :=
  let ok := r.returncode == 0
  match (if !ok && r.stderr ≠ "" then extractIssues r.stderr language else .ok []) with
  | .error e => .error e
  | .ok issues =>
    .ok { success := true, compilationSuccessful := some ok, issues := issues,
          exactFixes := generateExactFixes issues language,
          rawStderr := some r.stderr, rawStdout := some r.stdout,
          primaryIssue := issues.head? }

/-- `_cleanup_temp_file(filepath, language)` over the file-system state (a list
of existing paths; `os.unlink` after `os.path.exists` is removal of every
occurrence). -/
def cleanupTempFile (fs : List String) (filepath language : String) : List String :=
  let fs1 := fs.filter (fun f => f ≠ filepath)
  if (language = "cpp" || language = "c") && fs1.contains "/tmp/output" then
    fs1.filter (fun f => f ≠ "/tmp/output")
  else fs1

/-- `analyze_code(code, language)` with the file system passed explicitly.
`tempName` is the unique scratch name `NamedTemporaryFile` picks; the file's
content plays no role in the claims and is not tracked.  The `try` block
covers file creation, compilation, parsing and cleanup; any exception inside
it (timeout, java `AttributeError`, ...) yields the failure dictionary — and
skips the cleanup step, which only runs on the non-raising path. -/
def analyzeCode (w : SysWorld) (tempName : String) (fs : List String)
    (_code language : String) : AnalyzeOutput × List String :=
  if (compilersTable.lookup language).isNone then
    ({ success := false, error := some ("Unsupported language: " ++ language) }, fs)
  else
    let fs1 := fs ++ [tempName]
    match w.run (buildCmd language tempName) with
    | .timedOut =>
      ({ success := false,
         error := some ("Analysis failed: " ++ timeoutExpiredMsg (buildCmd language tempName)) },
       fs1)
    | .raised msg =>
      ({ success := false, error := some ("Analysis failed: " ++ msg) }, fs1)
    | .completed r =>
      let fs2 := fs1 ++ r.created
      match parseCompilerOutput r language with
      | .error e =>
        ({ success := false, error := some ("Analysis failed: " ++ e.message) }, fs2)
      | .ok out => (out, cleanupTempFile fs2 tempName language)

/-! ## Helper lemmas -/

/-- A prefix match yields a decomposition. -/
lemma beginsWith_exists (n : List Char) :
    ∀ h, beginsWith n h = true → ∃ t, h = n ++ t := by
  induction n with
  | nil => intro h _; exact ⟨h, rfl⟩
  | cons c cs ih =>
    intro h hb
    cases h with
    | nil => simp [beginsWith] at hb
    | cons d ds =>
      simp only [beginsWith, Bool.and_eq_true, decide_eq_true_eq] at hb
      obtain ⟨t, rfl⟩ := ih ds hb.2
      exact ⟨t, by rw [hb.1]; simp⟩

/-- A substring match yields a decomposition of the haystack. -/
lemma searchSub_exists (n : List Char) :
    ∀ h, searchSub n h = true → ∃ pre post, h = pre ++ (n ++ post) := by
  intro h
  induction h with
  | nil =>
    intro hs
    obtain ⟨t, ht⟩ := beginsWith_exists n [] hs
    exact ⟨[], t, ht⟩
  | cons c rest ih =>
    intro hs
    simp only [searchSub, Bool.or_eq_true] at hs
    rcases hs with hb | hrec
    · obtain ⟨t, ht⟩ := beginsWith_exists n _ hb
      exact ⟨[], t, ht⟩
    · obtain ⟨pre, post, hp⟩ := ih hrec
      exact ⟨c :: pre, post, by rw [hp]; simp⟩

/-- If `p` holds at the suffix `b`, the position scan over `a ++ b` succeeds. -/
lemma anySuffix_append (p : List Char → Bool) (b : List Char) (hb : p b = true) :
    ∀ a, anySuffix p (a ++ b) = true := by
  intro a
  induction a with
  | nil =>
    cases b with
    | nil => simpa [anySuffix] using hb
    | cons c r => simp [anySuffix, hb]
  | cons c a ih => simp [anySuffix, ih]

/-- The seed's confidence never exceeds the fold's result. -/
lemma foldl_conf_ge_seed (t : List DetectedIssue) :
    ∀ b : DetectedIssue,
      b.confidence ≤
        (t.foldl (fun b x => if b.confidence < x.confidence then x else b) b).confidence := by
  induction t with
  | nil => intro b; exact le_refl _
  | cons x t ih =>
    intro b
    simp only [List.foldl_cons]
    refine le_trans ?_ (ih _)
    by_cases hc : b.confidence < x.confidence
    · rw [if_pos hc]; exact le_of_lt hc
    · rw [if_neg hc]

/-- No member's confidence exceeds the fold's result. -/
lemma foldl_conf_ge_mem (t : List DetectedIssue) :
    ∀ (b i : DetectedIssue), i ∈ t →
      i.confidence ≤
        (t.foldl (fun b x => if b.confidence < x.confidence then x else b) b).confidence := by
  induction t with
  | nil => intro b i hi; simp at hi
  | cons x t ih =>
    intro b i hi
    simp only [List.foldl_cons]
    rcases List.mem_cons.mp hi with rfl | hm
    · refine le_trans ?_ (foldl_conf_ge_seed t _)
      by_cases hc : b.confidence < i.confidence
      · rw [if_pos hc]
      · rw [if_neg hc]; exact le_of_not_lt hc
    · exact ih _ i hm

/-- `bestByConfidence` dominates every member of the list. -/
lemma bestByConfidence_le (l : List DetectedIssue) (i : DetectedIssue) (hi : i ∈ l) :
    i.confidence ≤ (bestByConfidence l).confidence := by
  cases l with
  | nil => simp at hi
  | cons h t =>
    rcases List.mem_cons.mp hi with rfl | hm
    · exact foldl_conf_ge_seed t i
    · exact foldl_conf_ge_mem t h i hm

/-- The fold's result is the seed or a list member. -/
lemma foldl_conf_mem (t : List DetectedIssue) :
    ∀ b : DetectedIssue,
      (t.foldl (fun b x => if b.confidence < x.confidence then x else b) b) = b
      ∨ (t.foldl (fun b x => if b.confidence < x.confidence then x else b) b) ∈ t := by
  induction t with
  | nil => intro b; exact Or.inl rfl
  | cons x t ih =>
    intro b
    simp only [List.foldl_cons]
    rcases ih (if b.confidence < x.confidence then x else b) with h | h
    · rw [h]
      by_cases hc : b.confidence < x.confidence
      · rw [if_pos hc]; exact Or.inr (List.mem_cons_self _ _)
      · rw [if_neg hc]; exact Or.inl rfl
    · exact Or.inr (List.mem_cons_of_mem _ h)

/-- `bestByConfidence` of a nonempty list is one of its members. -/
lemma bestByConfidence_mem (l : List DetectedIssue) (hne : l ≠ []) :
    bestByConfidence l ∈ l := by
  cases l with
  | nil => exact absurd rfl hne
  | cons h t =>
    rcases foldl_conf_mem t h with he | he
    · have hb : bestByConfidence (h :: t)
          = List.foldl (fun b x => if b.confidence < x.confidence then x else b) h t := rfl
      rw [hb, he]
      exact List.mem_cons_self _ _
    · exact List.mem_cons_of_mem _ he

/-! ## Claim theorems -/

/-- Filtering away `a` leaves no `a`. -/
lemma not_mem_filter_ne (a : String) (l : List String) :
    a ∉ l.filter (fun f => f ≠ a) := by
  intro hm
  rw [List.mem_filter] at hm
  simp at hm

/-- Cleanup always removes the scratch file. -/
lemma cleanup_not_mem_temp (fs : List String) (filepath language : String) :
    filepath ∉ cleanupTempFile fs filepath language := by
  simp only [cleanupTempFile]
  split
  · intro hm
    rw [List.mem_filter] at hm
    have h1 := hm.1
    rw [List.mem_filter] at h1
    simp at h1
  · exact not_mem_filter_ne _ _

/-- For the compiled languages, cleanup also removes the binary artifact. -/
lemma cleanup_no_output (fs : List String) (filepath language : String)
    (hl : language = "cpp" ∨ language = "c") :
    "/tmp/output" ∉ cleanupTempFile fs filepath language := by
  simp only [cleanupTempFile]
  split
  · exact not_mem_filter_ne _ _
  · next hcond =>
    intro hm
    apply hcond
    have h1 : (decide (language = "cpp") || decide (language = "c")) = true := by
      rcases hl with rfl | rfl <;> simp
    have h2 : (fs.filter (fun f => f ≠ filepath)).contains "/tmp/output" = true :=
      List.elem_eq_true_of_mem hm
    rw [h1, h2]
    decide

-- C2 --------------------------------------------------------------------

/-- C2: classification is a strict priority chain: a nonempty syntax-detector
result forces `("Syntax Error", max syntax confidence)` regardless of the
model; otherwise a nonempty compilation-detector result forces
`("Compilation Error", its max)`; otherwise a nonempty logic-detector result
forces `("Logic Error", its max)`; only with all three empty is the
statistical/rule fallback consulted.  The returned confidence is the maximum
over the winning family (`bestByConfidence` is a member dominating all). -/
theorem classifier_priority_chain (p : Option ModelPipeline) (code : String) :
    (detectSyntaxErrors code ≠ [] →
      predictConcept p code
          = ("Syntax Error", (bestByConfidence (detectSyntaxErrors code)).confidence)
      ∧ bestByConfidence (detectSyntaxErrors code) ∈ detectSyntaxErrors code
      ∧ ∀ i ∈ detectSyntaxErrors code,
          i.confidence ≤ (bestByConfidence (detectSyntaxErrors code)).confidence)
    ∧ (detectSyntaxErrors code = [] → detectCompilationErrors code ≠ [] →
      predictConcept p code
          = ("Compilation Error", (bestByConfidence (detectCompilationErrors code)).confidence)
      ∧ bestByConfidence (detectCompilationErrors code) ∈ detectCompilationErrors code
      ∧ ∀ i ∈ detectCompilationErrors code,
          i.confidence ≤ (bestByConfidence (detectCompilationErrors code)).confidence)
    ∧ (detectSyntaxErrors code = [] → detectCompilationErrors code = [] →
        detectLogicErrors code ≠ [] →
      predictConcept p code
          = ("Logic Error", (bestByConfidence (detectLogicErrors code)).confidence)
      ∧ bestByConfidence (detectLogicErrors code) ∈ detectLogicErrors code
      ∧ ∀ i ∈ detectLogicErrors code,
          i.confidence ≤ (bestByConfidence (detectLogicErrors code)).confidence)
    ∧ (detectSyntaxErrors code = [] → detectCompilationErrors code = [] →
        detectLogicErrors code = [] →
      predictConcept p code = topicBranch p code) := by
  refine ⟨fun h => ⟨?_, bestByConfidence_mem _ h, fun i hi => bestByConfidence_le _ i hi⟩,
    fun h1 h2 => ⟨?_, bestByConfidence_mem _ h2, fun i hi => bestByConfidence_le _ i hi⟩,
    fun h1 h2 h3 => ⟨?_, bestByConfidence_mem _ h3, fun i hi => bestByConfidence_le _ i hi⟩,
    fun h1 h2 h3 => ?_⟩
  · unfold predictConcept; rw [if_neg h]
  · unfold predictConcept; rw [if_pos h1, if_neg h2]
  · unfold predictConcept; rw [if_pos h1, if_pos h2, if_neg h3]
  · unfold predictConcept; rw [if_pos h1, if_pos h2, if_pos h3]

/-- A statistical model predicting a topic at probability 0.95, used to check
that the chain ignores it whenever a detector fires. -/
def probeModel : ModelPipeline := ⟨fun _ => some "Sorting", fun _ => some (19/20)⟩

/-- Fixture for the syntax branch of the chain. -/
def codeSynW : String := "#include <iostream>\n#define int long long;"

/-- Fixture for the compilation branch of the chain. -/
def codeCompW : String := "#include <iostream>\nint main() { sort(a, a + n); return 0; }"

/-- Fixture for the logic branch of the chain. -/
def codeLogicW : String := "while (left <= right) { mid = (left + right) / 2; }"

/-- Witness for C2: the four branches at concrete fixtures, with the
0.95-topic model present. -/
theorem classifier_priority_chain_witness :
    (detectSyntaxErrors codeSynW ≠ []
      ∧ predictConcept (some probeModel) codeSynW
          = ("Syntax Error", (bestByConfidence (detectSyntaxErrors codeSynW)).confidence))
    ∧ (detectSyntaxErrors codeCompW = [] ∧ detectCompilationErrors codeCompW ≠ []
      ∧ predictConcept (some probeModel) codeCompW
          = ("Compilation Error", (bestByConfidence (detectCompilationErrors codeCompW)).confidence))
    ∧ (detectSyntaxErrors codeLogicW = [] ∧ detectCompilationErrors codeLogicW = []
      ∧ detectLogicErrors codeLogicW ≠ []
      ∧ predictConcept (some probeModel) codeLogicW
          = ("Logic Error", (bestByConfidence (detectLogicErrors codeLogicW)).confidence))
    ∧ (detectSyntaxErrors "hello" = [] ∧ detectCompilationErrors "hello" = []
      ∧ detectLogicErrors "hello" = []
      ∧ predictConcept (some probeModel) "hello" = topicBranch (some probeModel) "hello") :=
  ⟨⟨by decide, ((classifier_priority_chain (some probeModel) codeSynW).1 (by decide)).1⟩,
   ⟨by decide, by decide,
    ((classifier_priority_chain (some probeModel) codeCompW).2.1 (by decide) (by decide)).1⟩,
   ⟨by decide, by decide, by decide,
    ((classifier_priority_chain (some probeModel) codeLogicW).2.2.1 (by decide) (by decide) (by decide)).1⟩,
   ⟨by decide, by decide, by decide,
    (classifier_priority_chain (some probeModel) "hello").2.2.2 (by decide) (by decide) (by decide)⟩⟩

-- C9 --------------------------------------------------------------------

/-- C9: keyword-typo detection is plain substring matching: any code containing
`fro` (e.g. inside a correct `from x import y`) gets the 0.8-confidence typo
issue, so `predict_concept` classifies it as `Syntax Error` with confidence at
least 0.8, with or without a model. -/
theorem fro_typo_syntax_error (p : Option ModelPipeline) (code : String)
    (h : strContains "fro" code = true) :
    mkTypoIssue ("fro", "for") ∈ checkKeywordTypos code
    ∧ (mkTypoIssue ("fro", "for")).confidence = 4/5
    ∧ (predictConcept p code).1 = "Syntax Error"
    ∧ 4/5 ≤ (predictConcept p code).2 := by
  have hmem : mkTypoIssue ("fro", "for") ∈ checkKeywordTypos code := by
    unfold checkKeywordTypos
    refine List.mem_map_of_mem _ ?_
    rw [List.mem_filter]
    exact ⟨by decide, h⟩
  have hse : mkTypoIssue ("fro", "for") ∈ detectSyntaxErrors code := by
    unfold detectSyntaxErrors
    exact List.mem_append.mpr (Or.inr hmem)
  have hne : detectSyntaxErrors code ≠ [] := List.ne_nil_of_mem hse
  have hpc : predictConcept p code
      = ("Syntax Error", (bestByConfidence (detectSyntaxErrors code)).confidence) := by
    unfold predictConcept; rw [if_neg hne]
  refine ⟨hmem, rfl, by rw [hpc], ?_⟩
  rw [hpc]
  exact bestByConfidence_le _ _ hse

/-- Witness for C9 at the well-formed line `from x import y`. -/
theorem fro_typo_syntax_error_witness :
    strContains "fro" "from x import y" = true
    ∧ (mkTypoIssue ("fro", "for") ∈ checkKeywordTypos "from x import y"
       ∧ (mkTypoIssue ("fro", "for")).confidence = 4/5
       ∧ (predictConcept none "from x import y").1 = "Syntax Error"
       ∧ 4/5 ≤ (predictConcept none "from x import y").2) :=
  ⟨by decide, fro_typo_syntax_error none "from x import y" (by decide)⟩

-- C3 --------------------------------------------------------------------

/-- Counterexample to C3 as stated: the bare anomaly `#define int long long;`
with no C/C++ marker substring is classified `General Programming`, not
`Syntax Error` (with no model loaded, at confidence 0.5). -/
theorem define_semi_alone_counterexample :
    predictConcept none "#define int long long;" = ("General Programming", 1/2)
    ∧ (predictConcept none "#define int long long;").1 ≠ "Syntax Error" :=
  ⟨rfl, by
    rw [show predictConcept none "#define int long long;"
        = ("General Programming", 1/2) from rfl]
    decide⟩

/-- C3 (amended): if the code contains `#define int long long;` and one of the
C/C++ marker substrings (`#include`, `using namespace`, `cout`, `cin` in the
lowered code), classification returns `Syntax Error`, whether or not a model is
present. -/
theorem define_semi_with_marker_syntax_error (p : Option ModelPipeline) (code : String)
    (h1 : strContains "#define int long long;" code = true)
    (h2 : cppMarkerPresent code = true) :
    (predictConcept p code).1 = "Syntax Error" := by
  have hds : defineSemiSearch code.data = true := by
    obtain ⟨pre, post, hp⟩ :=
      searchSub_exists "#define int long long;".data code.data h1
    unfold defineSemiSearch
    rw [hp]
    exact anySuffix_append _ _
      (show defineSemiAt ("#define int long long;".data ++ post) = true from rfl) pre
  have hne : detectSyntaxErrors code ≠ [] := by
    simp [detectSyntaxErrors, h2, hds]
  unfold predictConcept
  rw [if_neg hne]

/-- Witness fixture for the amended C3. -/
def codeC3W : String := "#include\n#define int long long;"

/-- Witness for the amended C3. -/
theorem define_semi_with_marker_witness :
    strContains "#define int long long;" codeC3W = true
    ∧ cppMarkerPresent codeC3W = true
    ∧ (predictConcept none codeC3W).1 = "Syntax Error" :=
  ⟨by decide, by decide,
   define_semi_with_marker_syntax_error none codeC3W (by decide) (by decide)⟩

-- C1 --------------------------------------------------------------------

/-- C1 (code evaluation): whenever the generative chain is unconfigured, every
call to `get_suggestion` raises `NameError: name 're' is not defined` — the
fallback helpers reference the unimported `re`, and the second fallback call
(inside the `except` handler) runs outside any `try`. -/
theorem llm_fallback_raises_nameerror (code error concept language : String) (confidence : ℚ) :
    getSuggestionEngine none code error concept language confidence
      = .error (.nameErr "re") := by
  simp [getSuggestionEngine, enhancedFallbackSuggestion, getSyntaxErrorSuggestion,
    reImportedInLlmUtils]

-- C4 --------------------------------------------------------------------

/-- A toolchain that always times out. -/
def timeoutWorld : SysWorld := ⟨fun _ => .timedOut⟩

/-- Counterexample to C4 as stated: when the toolchain invocation raises
(times out), `analyze_code` returns without the cleanup step, and the scratch
file survives the call. -/
theorem scratch_file_survives_timeout :
    "/tmp/scratch.cpp" ∈
      (analyzeCode timeoutWorld "/tmp/scratch.cpp" [] "int main() \x7b" "cpp").2 := by
  decide

/-- C4 (amended): on the non-raising path (toolchain completed and parsing
returned) the scratch file — and for the compiled languages the binary
artifact — is removed before return; when the toolchain invocation raises
(e.g. timeout) the failure shape is returned and the scratch file is NOT
deleted. -/
theorem cleanup_amended (w : SysWorld) (tempName : String) (fs : List String)
    (code language : String) (r : RunRes) (out : AnalyzeOutput)
    (hlang : (compilersTable.lookup language).isSome = true) :
    (w.run (buildCmd language tempName) = .completed r →
      parseCompilerOutput r language = .ok out →
      tempName ∉ (analyzeCode w tempName fs code language).2
      ∧ ((language = "cpp" ∨ language = "c") →
          "/tmp/output" ∉ (analyzeCode w tempName fs code language).2))
    ∧ (w.run (buildCmd language tempName) = .timedOut →
      (analyzeCode w tempName fs code language).1.success = false
      ∧ tempName ∈ (analyzeCode w tempName fs code language).2) := by
  have hn : (compilersTable.lookup language).isNone = false := by
    cases hx : compilersTable.lookup language
    · rw [hx] at hlang; simp at hlang
    · simp
  constructor
  · intro hrun hparse
    have ha : analyzeCode w tempName fs code language
        = (out, cleanupTempFile (fs ++ [tempName] ++ r.created) tempName language) := by
      simp only [analyzeCode, hn, Bool.false_eq_true, if_false, hrun, hparse]
    rw [ha]
    exact ⟨cleanup_not_mem_temp _ _ _, fun hl => cleanup_no_output _ _ _ hl⟩
  · intro hto
    have ha : analyzeCode w tempName fs code language
        = ({ success := false,
             error := some ("Analysis failed: "
               ++ timeoutExpiredMsg (buildCmd language tempName)) },
           fs ++ [tempName]) := by
      simp only [analyzeCode, hn, Bool.false_eq_true, if_false, hto]
    rw [ha]
    exact ⟨rfl, by simp⟩

/-- A toolchain that completes successfully, producing the binary. -/
def okWorld : SysWorld := ⟨fun _ => .completed ⟨0, "", "", ["/tmp/output"]⟩⟩

/-- The parsed output of a silent, successful compile. -/
def okOut : AnalyzeOutput :=
  { success := true, compilationSuccessful := some true, issues := [], exactFixes := [],
    rawStderr := some "", rawStdout := some "", primaryIssue := none }

/-- Witness for the amended C4: both branches at concrete worlds. -/
theorem cleanup_amended_witness :
    ((compilersTable.lookup "cpp").isSome = true
      ∧ parseCompilerOutput ⟨0, "", "", ["/tmp/output"]⟩ "cpp" = .ok okOut)
    ∧ ("/tmp/file.cpp" ∉ (analyzeCode okWorld "/tmp/file.cpp" [] "int main(){}" "cpp").2
      ∧ ((("cpp" : String) = "cpp" ∨ ("cpp" : String) = "c") →
          "/tmp/output" ∉ (analyzeCode okWorld "/tmp/file.cpp" [] "int main(){}" "cpp").2))
    ∧ ((analyzeCode timeoutWorld "/tmp/file.cpp" [] "int main(){}" "cpp").1.success = false
      ∧ "/tmp/file.cpp" ∈ (analyzeCode timeoutWorld "/tmp/file.cpp" [] "int main(){}" "cpp").2) :=
  ⟨⟨by decide, rfl⟩,
   (cleanup_amended okWorld "/tmp/file.cpp" [] "int main(){}" "cpp"
      ⟨0, "", "", ["/tmp/output"]⟩ okOut (by decide)).1 rfl rfl,
   (cleanup_amended timeoutWorld "/tmp/file.cpp" [] "int main(){}" "cpp"
      ⟨0, "", "", ["/tmp/output"]⟩ okOut (by decide)).2 rfl⟩

-- C5 --------------------------------------------------------------------

/-- C5: a toolchain timeout is caught: `analyze_code` returns (no exception,
no hang) the failure shape with `success = false` and the synthetic
`TimeoutExpired` message. -/
theorem timeout_reported (w : SysWorld) (tempName : String) (fs : List String)
    (code language : String)
    (hlang : (compilersTable.lookup language).isSome = true)
    (hto : w.run (buildCmd language tempName) = .timedOut) :
    (analyzeCode w tempName fs code language).1
      = { success := false,
          error := some ("Analysis failed: " ++ timeoutExpiredMsg (buildCmd language tempName)),
          issues := [] } := by
  have hn : (compilersTable.lookup language).isNone = false := by
    cases hx : compilersTable.lookup language
    · rw [hx] at hlang; simp at hlang
    · simp
  simp only [analyzeCode, hn, Bool.false_eq_true, if_false, hto]

/-- Witness for C5 at a concrete timing-out compile. -/
theorem timeout_reported_witness :
    ((compilersTable.lookup "cpp").isSome = true
     ∧ timeoutWorld.run (buildCmd "cpp" "/tmp/t.cpp") = .timedOut)
    ∧ (analyzeCode timeoutWorld "/tmp/t.cpp" [] "while(1){}" "cpp").1
        = { success := false,
            error := some ("Analysis failed: " ++ timeoutExpiredMsg (buildCmd "cpp" "/tmp/t.cpp")),
            issues := [] } :=
  ⟨⟨by decide, rfl⟩,
   timeout_reported timeoutWorld "/tmp/t.cpp" [] "while(1){}" "cpp" (by decide) rfl⟩

-- C6 --------------------------------------------------------------------

/-- C6: the bracket detector yields exactly one 0.9-confidence
mismatched-bracket issue on `"(a, [b)]"`, none on `"(a, [b])"`, and exactly one
unmatched-opener issue on `"(a"`. -/
theorem bracket_matching_cases :
    detectSyntaxErrors "(a, [b)]" =
      [{ type := "Syntax Error", issue := "Unmatched brackets/braces", confidence := 9/10,
         details := some "Mismatched brackets: '[' at 4 and ')' at 6" }]
    ∧ detectSyntaxErrors "(a, [b])" = []
    ∧ detectSyntaxErrors "(a" =
      [{ type := "Syntax Error", issue := "Unmatched brackets/braces", confidence := 9/10,
         details := some "Unmatched opening '(' at position 0" }] :=
  ⟨rfl, rfl, rfl⟩

-- C7 --------------------------------------------------------------------

/-- C7: code longer than 2000 characters is sent to the generative chain as
exactly its first 2000 characters plus the truncation marker; the engine's
result carries the generative source, and the submission record of the route
stores the original, untruncated code. -/
theorem generative_truncation (invokeFn : PromptPayload → Except PyExc String)
    (code error concept language : String) (confidence : ℚ)
    (res : SuggestionResult) (text : String)
    (hlen : 2000 < code.data.length)
    (hok : invokeFn (mkPromptPayload code error concept language confidence) = .ok text) :
    (mkPromptPayload code error concept language confidence).code
        = String.mk (code.data.take 2000) ++ "\n... (truncated)"
    ∧ getSuggestionEngine (some invokeFn) code error concept language confidence
        = .ok { suggestion := pyStrip text, source := "llm", success := true,
                errorType := concept }
    ∧ (mkSubmission code error concept res confidence).code = code := by
  refine ⟨?_, ?_, rfl⟩
  · show truncatedPromptCode code = _
    unfold truncatedPromptCode
    rw [if_pos hlen]
  · simp [getSuggestionEngine, hok]

/-- A 2001-character code fixture. -/
def codeLongW : String := String.mk (List.replicate 2001 'a')

/-- A generative chain that answers. -/
def invokeW : PromptPayload → Except PyExc String := fun _ => .ok "Fix the loop bound."

/-- An arbitrary suggestion result for the submission record. -/
def resW : SuggestionResult :=
  { suggestion := "x", source := "llm", success := true, errorType := "Sorting" }

/-- Witness for C7. -/
theorem generative_truncation_witness :
    2000 < codeLongW.data.length
    ∧ ((mkPromptPayload codeLongW "" "Sorting" "cpp" (1/2)).code
          = String.mk (codeLongW.data.take 2000) ++ "\n... (truncated)"
       ∧ getSuggestionEngine (some invokeW) codeLongW "" "Sorting" "cpp" (1/2)
          = .ok { suggestion := pyStrip "Fix the loop bound.", source := "llm",
                  success := true, errorType := "Sorting" }
       ∧ (mkSubmission codeLongW "" "Sorting" resW (1/2)).code = codeLongW) := by
  have h1 : codeLongW.data.length = 2001 := List.length_replicate _ _
  have hl : 2000 < codeLongW.data.length := by
    rw [h1]
    decide
  exact ⟨hl, generative_truncation invokeW codeLongW "" "Sorting" "cpp" (1/2) resW
    "Fix the loop bound." hl rfl⟩

-- C8 --------------------------------------------------------------------

/-- C8 (code evaluation): on code matching no heuristic and no keyword rule,
with no model, the classifier does return `("General Programming", 0.5)` — but
the template-suggestion half of the claim fails: with the generative service
unconfigured, the suggestion call raises `NameError` (missing `re` import)
instead of returning a template suggestion. -/
theorem default_pipeline_code_bug :
    predictConcept none "hello" = ("General Programming", 1/2)
    ∧ getSuggestionEngine none "hello" "" "General Programming" "cpp" (1/2)
        = .error (.nameErr "re") :=
  ⟨rfl, rfl⟩

-- C10 -------------------------------------------------------------------

/-- C10: for java, whenever the toolchain exits non-zero with non-empty
stderr, issue extraction dispatches to the undefined `_parse_java_errors`,
the `AttributeError` is caught by the top-level handler, and `analyze_code`
returns the failure shape with an empty issue list. -/
theorem java_diagnostics_never_parsed (w : SysWorld) (tempName : String)
    (fs : List String) (code : String) (r : RunRes)
    (hrun : w.run (buildCmd "java" tempName) = .completed r)
    (hrc : r.returncode ≠ 0) (hstderr : r.stderr ≠ "") :
    (analyzeCode w tempName fs code "java").1
      = { success := false, error := some ("Analysis failed: " ++ javaAttrMsg),
          issues := [] } := by
  have hbeq : (r.returncode == 0) = false := by simp [hrc]
  have hd : decide (r.stderr ≠ "") = true := decide_eq_true hstderr
  have hext : extractIssues r.stderr "java" = .error (.attrErr javaAttrMsg) := rfl
  have hparse : parseCompilerOutput r "java" = .error (.attrErr javaAttrMsg) := by
    simp only [parseCompilerOutput, hbeq, Bool.not_false, hd, Bool.and_self, if_true, hext]
  have hn : (compilersTable.lookup "java").isNone = false := rfl
  simp only [analyzeCode, hn, Bool.false_eq_true, if_false, hrun, hparse]
  rfl

/-- A java toolchain run that fails with diagnostics. -/
def javaWorld : SysWorld := ⟨fun _ => .completed ⟨1, "", "Main.java:1: error: x", []⟩⟩

/-- Witness for C10. -/
theorem java_diagnostics_never_parsed_witness :
    (javaWorld.run (buildCmd "java" "/tmp/T.java")
        = .completed ⟨1, "", "Main.java:1: error: x", []⟩
     ∧ (1 : Int) ≠ 0 ∧ ("Main.java:1: error: x" : String) ≠ "")
    ∧ (analyzeCode javaWorld "/tmp/T.java" [] "class T {}" "java").1
        = { success := false, error := some ("Analysis failed: " ++ javaAttrMsg),
            issues := [] } :=
  ⟨⟨rfl, by decide, by decide⟩,
   java_diagnostics_never_parsed javaWorld "/tmp/T.java" [] "class T {}"
     ⟨1, "", "Main.java:1: error: x", []⟩ rfl (by decide) (by decide)⟩


end CodeMentor
